import Mathlib

/-!
Shallow embedding of `src/sprite_manager.py` (SpriteFrameTool).

Modelling conventions:
* Python dicts are insertion-ordered association lists; `alookup` mirrors
  `d.get(k)` and `aset` mirrors `d[k] = v` (update in place if the key is
  present, append otherwise).
* Filesystem paths are lists of components (`AbsPath`); `os.path.join`
  is list append, `os.path.relpath` against a prefix drops the prefix.
* Python `//` on integers is `Int.fdiv` (floor division).
* Python `int(...)` applied to a rational value truncates toward zero
  (`pyInt`); Python `round` is round-half-to-even (`pyRound`).
  Float rounding error is outside the model: arithmetic is exact on `ℚ`.
-/

namespace SpriteFrameTool

abbrev Entry : Type := List (String × Int)

abbrev AbsPath : Type := List String

abbrev Dataset : Type := List (AbsPath × Entry)

/-- Python dict lookup `d.get(k)` on an insertion-ordered assoc list. -/
def alookup {α β : Type} [DecidableEq α] : List (α × β) → α → Option β
  | [], _ => none
  | kv :: rest, k => if kv.1 = k then some kv.2 else alookup rest k

/-- Python dict assignment `d[k] = v`: update in place when the key is
present (keeping its position), append a new pair otherwise. -/
def aset {α β : Type} [DecidableEq α] (l : List (α × β)) (k : α) (v : β) : List (α × β) :=
  if (alookup l k).isSome then
    l.map fun kv => if kv.1 = k then (k, v) else kv
  else l ++ [(k, v)]

/-- `SpriteManager.update_data` (src/sprite_manager.py lines 415-426):
writes `frame_count_x`, `frame_count_y`, `origin_x`, `origin_y` (the parsed
text-field values), then `frame_width = img_width // frame_count_x` and
`frame_height = img_height // frame_count_y`, into the entry, in this
order.  Python `//` is floor division, hence `Int.fdiv`. -/
def update_data (img_width img_height frame_count_x frame_count_y origin_x origin_y : Int)
    (entry : Entry) : Entry :=
  let e1 := aset entry "frame_count_x" frame_count_x
  let e2 := aset e1 "frame_count_y" frame_count_y
  let e3 := aset e2 "origin_x" origin_x
  let e4 := aset e3 "origin_y" origin_y
  let e5 := aset e4 "frame_width" (Int.fdiv img_width frame_count_x)
  aset e5 "frame_height" (Int.fdiv img_height frame_count_y)

/-- Floor of a rational, written so that the kernel can evaluate it
(`⌊q⌋ = q.num / q.den`, see `Rat.floor_def`). -/
def pyFloor (q : ℚ) : Int := q.num / (q.den : Int)

/-- Ceiling of a rational, kernel-evaluable. -/
def pyCeil (q : ℚ) : Int := -pyFloor (-q)

/-- Python `int(...)` on an exact rational: truncation toward zero. -/
def pyInt (q : ℚ) : Int :=
  if 0 ≤ q then pyFloor q else pyCeil q

/-- Python `round(...)` on an exact rational: round half to even. -/
def pyRound (q : ℚ) : Int :=
  if q - pyFloor q < 1 / 2 then pyFloor q
  else if 1 / 2 < q - pyFloor q then pyFloor q + 1
  else if pyFloor q % 2 = 0 then pyFloor q else pyFloor q + 1

/-- `OriginPoint.itemChange` (src/sprite_manager.py lines 88-111) on a
position-change event: when `zoom > 0` the display position is snapped so
that its image-space preimage is an integer (divide by zoom, `round`,
multiply back); then the origin text fields receive
`int(new_pos / zoom)` and `update_data` rewrites the entry using the
current count text fields `count_x`, `count_y`. -/
def itemChange (zoom posX posY : ℚ) (img_width img_height count_x count_y : Int)
    (entry : Entry) : Entry :=
  let p :=
    if 0 < zoom then
      (((pyRound (posX / zoom) : Int) : ℚ) * zoom, ((pyRound (posY / zoom) : Int) : ℚ) * zoom)
    else (posX, posY)
  let origin_x := pyInt (p.1 / zoom)
  let origin_y := pyInt (p.2 / zoom)
  update_data img_width img_height count_x count_y origin_x origin_y entry

/-- Dataset-level effect of a marker drag: `itemChange` fetches
`self.data[self.current_path]` and mutates that entry in place
(src/sprite_manager.py line 108); `none` models the `KeyError` raised when
the current path is not a key of the dataset. -/
def moveOriginPoint (data : Dataset) (current : AbsPath) (zoom posX posY : ℚ)
    (img_width img_height count_x count_y : Int) : Option Dataset :=
  (alookup data current).map fun e =>
    aset data current (itemChange zoom posX posY img_width img_height count_x count_y e)

/-- Modelled from the spec: `DeriveFromSizes(imageWidth, imageHeight,
frameWidth, frameHeight)` integer-divides image dimensions by frame size
with floor semantics.  Only the counts-authoritative direction exists in
`src/` (`update_data`); the sizes-authoritative derivation is described in
the spec alone. -/
def deriveFromSizes (img_width img_height frame_width frame_height : Int) : Int × Int :=
  (Int.fdiv img_width frame_width, Int.fdiv img_height frame_height)

/-- Concrete dataset used to settle C6: one freshly discovered image whose
entry is still the empty placeholder. -/
def c6FreshData : Dataset := [(["r", "a.png"], [])]

/-- In-sync dataset used for the amended C6 and its witness. -/
def c6SyncEntry : Entry :=
  [("frame_count_x", 1), ("frame_count_y", 1), ("frame_width", 10), ("frame_height", 10)]

/-- State of the sidecar file `rootFolder/data.json` when a folder is
loaded: absent, present but failing to parse, or parsed into a mapping of
root-relative paths to entries. -/
inductive Sidecar : Type where
  | missing : Sidecar
  | malformed : Sidecar
  | parsed (entries : List (AbsPath × Entry)) : Sidecar

/-- `SpriteManager.load_folder` (src/sprite_manager.py lines 257-320),
data part: the sidecar (if present) is parsed and its keys joined to the
folder; a parse failure shows an error box (the `Bool` component) and
falls back to `{}`; entries whose path is not among the discovered image
paths are pruned; every discovered path missing from the data gets a
fresh empty entry, in scan order. -/
def load_folder (folder : AbsPath) (sidecar : Sidecar) (image_paths : List AbsPath) :
    Bool × Dataset :=
  let loadResult : Bool × Dataset :=
    match sidecar with
    | .missing => (false, [])
    | .malformed => (true, [])
    | .parsed l => (false, l.map fun kv => (folder ++ kv.1, kv.2))
  let pruned := loadResult.2.filter fun kv => decide (kv.1 ∈ image_paths)
  let data := image_paths.foldl
    (fun d p => if (alookup d p).isSome then d else aset d p []) pruned
  (loadResult.1, data)

/-- Contents of a count text field as seen by `on_count_change`: the empty
string, an integer literal, or text that `int(...)` rejects (non-numeric,
or a float literal such as "2.5", which Python `int` on a string also
rejects). -/
inductive FieldText : Type where
  | emptyText : FieldText
  | num (n : Int) : FieldText
  | invalid : FieldText
deriving DecidableEq

/-- Python `int(text)`: succeeds exactly on integer-literal text. -/
def parseCount : FieldText → Option Int
  | .num n => some n
  | _ => none

/-- `SpriteManager.on_count_change` (src/sprite_manager.py lines 428-450):
an empty count field is backfilled with "1" when the other is non-empty;
then both texts are parsed with `int`; on a `ValueError` nothing further
happens; otherwise a non-positive count sets its text to "1", and
`update_data` re-derives the entry from the (possibly clamped) texts.
Returns the final two texts and the entry.  `origin_x`/`origin_y` are the
parsed origin text fields (always integer-rendered by the editor). -/
def on_count_change (cx0 cy0 : FieldText) (img_width img_height origin_x origin_y : Int)
    (entry : Entry) : FieldText × FieldText × Entry :=
  let cy1 := if cx0 ≠ .emptyText ∧ cy0 = .emptyText then .num 1 else cy0
  let cx1 := if cy1 ≠ .emptyText ∧ cx0 = .emptyText then .num 1 else cx0
  match parseCount cx1, parseCount cy1 with
  | some nx, some ny =>
    let cx2 := if nx ≤ 0 then .num 1 else cx1
    let cy2 := if ny ≤ 0 then .num 1 else cy1
    let ex := if nx ≤ 0 then 1 else nx
    let ey := if ny ≤ 0 then 1 else ny
    (cx2, cy2, update_data img_width img_height ex ey origin_x origin_y entry)
  | _, _ => (cx1, cy1, entry)

/-- `os.path.commonpath` on component lists: longest common prefix. -/
def commonPathTwo : AbsPath → AbsPath → AbsPath
  | a :: as, b :: bs => if a = b then a :: commonPathTwo as bs else []
  | _, _ => []

/-- `os.path.commonpath(paths)` for a non-empty list of paths. -/
def commonpath : List AbsPath → AbsPath
  | [] => []
  | p :: ps => ps.foldl commonPathTwo p

/-- `os.path.relpath(p, root)` in the case export uses it: `root` is the
common path of the image paths, hence a prefix of every key. -/
def relpath (p root : AbsPath) : AbsPath := p.drop root.length

/-- What `json.dump(output, f, indent=4)` receives: the relativized
mapping (entries keep their insertion order) and the indentation width. -/
structure ExportOutput : Type where
  mapping : List (AbsPath × Entry)
  indent : Nat
deriving DecidableEq

/-- Outcome of `SpriteManager.export_json`. -/
inductive ExportResult : Type where
  | output (o : ExportOutput) : ExportResult
  | validationError (msg : String) : ExportResult
  | keyError : ExportResult
deriving DecidableEq

/-- `SpriteManager.export_json` (src/sprite_manager.py lines 474-491):
empty data or no image paths abort with an error box before anything is
touched; otherwise the current entry (if a path is selected) is flushed
through `update_data`, the keys are relativized against
`os.path.commonpath(self.image_paths)` and the mapping is dumped with
`indent=4`.  The second component is the in-memory dataset after the
call. -/
def export_json (data : Dataset) (image_paths : List AbsPath) (current : Option AbsPath)
    (img_width img_height count_x count_y origin_x origin_y : Int) :
    ExportResult × Dataset :=
  if data = [] then (.validationError "No data to export", data)
  else if image_paths = [] then (.validationError "No images loaded", data)
  else
    match current with
    | some p =>
      match alookup data p with
      | none => (.keyError, data)
      | some e =>
        let data2 := aset data p
          (update_data img_width img_height count_x count_y origin_x origin_y e)
        let root := commonpath image_paths
        (.output ⟨data2.map fun kv => (relpath kv.1 root, kv.2), 4⟩, data2)
    | none =>
      let root := commonpath image_paths
      (.output ⟨data.map fun kv => (relpath kv.1 root, kv.2), 4⟩, data)

theorem alookup_append {α β : Type} [DecidableEq α] (a b : List (α × β)) (k : α) :
    alookup (a ++ b) k = if (alookup a k).isSome then alookup a k else alookup b k := by
  induction a with
  | nil => simp [alookup]
  | cons kv rest ih =>
    by_cases h : kv.1 = k <;> simp [alookup, h, ih]

theorem alookup_map_upd_self {α β : Type} [DecidableEq α] (l : List (α × β)) (k : α) (v : β)
    (h : (alookup l k).isSome = true) :
    alookup (l.map fun kv => if kv.1 = k then (k, v) else kv) k = some v := by
  induction l with
  | nil => simp [alookup] at h
  | cons kv rest ih =>
    by_cases hk : kv.1 = k
    · simp [alookup, hk]
    · simp only [alookup, hk, if_false] at h
      simp [alookup, hk, ih h]

theorem alookup_map_upd_ne {α β : Type} [DecidableEq α] (l : List (α × β)) (k k' : α) (v : β)
    (h : k' ≠ k) :
    alookup (l.map fun kv => if kv.1 = k then (k, v) else kv) k' = alookup l k' := by
  induction l with
  | nil => simp [alookup]
  | cons kv rest ih =>
    by_cases hk : kv.1 = k
    · have h2 : ¬ (k = k') := fun he => h he.symm
      simp [alookup, hk, h2, ih]
    · simp [alookup, hk, ih]

theorem alookup_aset_self {α β : Type} [DecidableEq α] (l : List (α × β)) (k : α) (v : β) :
    alookup (aset l k v) k = some v := by
  unfold aset
  by_cases h : (alookup l k).isSome
  · simpa [h] using alookup_map_upd_self l k v h
  · have hn : alookup l k = none := by
      cases hc : alookup l k with
      | none => rfl
      | some w => simp [hc] at h
    simp [h, alookup_append, hn, alookup]

theorem alookup_aset_ne {α β : Type} [DecidableEq α] (l : List (α × β)) (k k' : α) (v : β)
    (h : k' ≠ k) :
    alookup (aset l k v) k' = alookup l k' := by
  unfold aset
  by_cases hs : (alookup l k).isSome
  · simpa [hs] using alookup_map_upd_ne l k k' v h
  · have h2 : ¬ (k = k') := fun he => h he.symm
    rw [if_neg hs, alookup_append]
    cases hc : alookup l k' <;> simp [hc, alookup, h2]

theorem update_data_lookups (w h cx cy ox oy : Int) (e : Entry) :
    alookup (update_data w h cx cy ox oy e) "frame_count_x" = some cx ∧
    alookup (update_data w h cx cy ox oy e) "frame_count_y" = some cy ∧
    alookup (update_data w h cx cy ox oy e) "origin_x" = some ox ∧
    alookup (update_data w h cx cy ox oy e) "origin_y" = some oy ∧
    alookup (update_data w h cx cy ox oy e) "frame_width" = some (Int.fdiv w cx) ∧
    alookup (update_data w h cx cy ox oy e) "frame_height" = some (Int.fdiv h cy) := by
  unfold update_data
  refine ⟨?_, ?_, ?_, ?_, ?_, ?_⟩
  · rw [alookup_aset_ne _ _ _ _ (by decide), alookup_aset_ne _ _ _ _ (by decide),
      alookup_aset_ne _ _ _ _ (by decide), alookup_aset_ne _ _ _ _ (by decide),
      alookup_aset_ne _ _ _ _ (by decide), alookup_aset_self]
  · rw [alookup_aset_ne _ _ _ _ (by decide), alookup_aset_ne _ _ _ _ (by decide),
      alookup_aset_ne _ _ _ _ (by decide), alookup_aset_ne _ _ _ _ (by decide),
      alookup_aset_self]
  · rw [alookup_aset_ne _ _ _ _ (by decide), alookup_aset_ne _ _ _ _ (by decide),
      alookup_aset_ne _ _ _ _ (by decide), alookup_aset_self]
  · rw [alookup_aset_ne _ _ _ _ (by decide), alookup_aset_ne _ _ _ _ (by decide),
      alookup_aset_self]
  · rw [alookup_aset_ne _ _ _ _ (by decide), alookup_aset_self]
  · rw [alookup_aset_self]

theorem pyFloor_eq_floor (q : ℚ) : pyFloor q = ⌊q⌋ := Rat.floor_def.symm

theorem pyCeil_eq_ceil (q : ℚ) : pyCeil q = ⌈q⌉ := by
  rw [pyCeil, pyFloor_eq_floor, ← Int.ceil_neg, neg_neg]

theorem pyInt_intCast (n : Int) : pyInt (n : ℚ) = n := by
  unfold pyInt
  by_cases h : (0 : ℚ) ≤ (n : ℚ) <;> simp [h, pyFloor_eq_floor, pyCeil_eq_ceil]

theorem fdiv_fdiv_ge (w k : Int) (hk : 0 < k) (hkw : k ≤ w) :
    k ≤ Int.fdiv w (Int.fdiv w k) := by
  have hk0 : (0 : Int) ≤ k := le_of_lt hk
  rw [Int.fdiv_eq_ediv w hk0]
  have hq : (1 : Int) ≤ w / k := by
    rw [Int.le_ediv_iff_mul_le hk]
    simpa using hkw
  have hq0 : (0 : Int) ≤ w / k := le_trans (by norm_num) hq
  rw [Int.fdiv_eq_ediv w hq0, Int.le_ediv_iff_mul_le (lt_of_lt_of_le one_pos hq)]
  calc k * (w / k) = w / k * k := mul_comm _ _
    _ ≤ w := Int.ediv_mul_le w (ne_of_gt hk)

theorem itemChange_eq_update_data (z px py : ℚ) (w h cx cy : Int) (e : Entry) :
    ∃ ox oy, itemChange z px py w h cx cy e = update_data w h cx cy ox oy e :=
  ⟨_, _, rfl⟩

/-- C1: for positive image dimensions and positive counts `update_data`
stores `frame_width = ⌊img_width / count_x⌋` and
`frame_height = ⌊img_height / count_y⌋` (Python floor division). -/
theorem c1_derive_from_counts (w h cx cy ox oy : Int) (e : Entry)
    (hw : 0 < w) (hh : 0 < h) (hcx : 0 < cx) (hcy : 0 < cy) :
    alookup (update_data w h cx cy ox oy e) "frame_width" = some (Int.fdiv w cx) ∧
    alookup (update_data w h cx cy ox oy e) "frame_height" = some (Int.fdiv h cy) :=
  ⟨(update_data_lookups w h cx cy ox oy e).2.2.2.2.1,
   (update_data_lookups w h cx cy ox oy e).2.2.2.2.2⟩

/-- C1 witness: a 128x64 image with counts (4, 2) yields frame size (32, 32). -/
theorem c1_witness :
    alookup (update_data 128 64 4 2 0 0 []) "frame_width" = some 32 ∧
    alookup (update_data 128 64 4 2 0 0 []) "frame_height" = some 32 := by
  have h := c1_derive_from_counts 128 64 4 2 0 0 [] (by decide) (by decide) (by decide) (by decide)
  exact ⟨h.1.trans (by decide), h.2.trans (by decide)⟩

/-- C2 counterexample: with a 10x10 image and counts (4, 4), the derived
frame size is (2, 2), and recomputing counts from those sizes gives
(5, 5), which is not `≤ (4, 4)` component-wise — the claimed bound fails. -/
theorem c2_counterexample :
    alookup (update_data 10 10 4 4 0 0 []) "frame_width" = some 2 ∧
    alookup (update_data 10 10 4 4 0 0 []) "frame_height" = some 2 ∧
    ¬ ((deriveFromSizes 10 10 2 2).1 ≤ 4 ∧ (deriveFromSizes 10 10 2 2).2 ≤ 4) := by
  decide

/-- C2 (amended): for positive counts bounded by the image dimensions,
composing the counts-to-sizes derivation of `update_data` with the
spec-modelled sizes-to-counts derivation yields counts that are greater
than or equal to the original counts component-wise (floor division loses
downward, so the recomputed counts can only grow). -/
theorem c2_amended (w h cx cy ox oy : Int) (e : Entry)
    (hcx : 0 < cx) (hxw : cx ≤ w) (hcy : 0 < cy) (hyh : cy ≤ h) :
    ∀ fw fh, alookup (update_data w h cx cy ox oy e) "frame_width" = some fw →
      alookup (update_data w h cx cy ox oy e) "frame_height" = some fh →
      cx ≤ (deriveFromSizes w h fw fh).1 ∧ cy ≤ (deriveFromSizes w h fw fh).2 := by
  intro fw fh h1 h2
  have L := update_data_lookups w h cx cy ox oy e
  have hfw : fw = Int.fdiv w cx :=
    (Option.some_inj.mp (L.2.2.2.2.1.symm.trans h1)).symm
  have hfh : fh = Int.fdiv h cy :=
    (Option.some_inj.mp (L.2.2.2.2.2.symm.trans h2)).symm
  subst hfw
  subst hfh
  exact ⟨fdiv_fdiv_ge w cx hcx hxw, fdiv_fdiv_ge h cy hcy hyh⟩

/-- C2 witness: concrete instance of the amended bound at a 10x10 image
with counts (4, 4): the recomputed counts are (5, 5) and `4 ≤ 5`. -/
theorem c2_amended_witness :
    4 ≤ (deriveFromSizes 10 10 2 2).1 ∧ 4 ≤ (deriveFromSizes 10 10 2 2).2 := by
  have h := c2_amended 10 10 4 4 0 0 [] (by decide) (by decide) (by decide) (by decide)
    2 2 (by decide) (by decide)
  exact h

/-- C5: a drag of the origin marker to the display position corresponding
to image-space coordinates `(x, y)` under zoom `z > 0` stores exactly
`(round x, round y)` (Python `round`) into the entry for the current path:
snapping happens in image space first, then the point is reprojected. -/
theorem c5_origin_rounded (data : Dataset) (current : AbsPath) (e : Entry)
    (he : alookup data current = some e) (z x y : ℚ) (hz : 0 < z)
    (w h cx cy : Int) :
    ∃ d, moveOriginPoint data current z (x * z) (y * z) w h cx cy = some d ∧
      ∃ e2, alookup d current = some e2 ∧
        alookup e2 "origin_x" = some (pyRound x) ∧
        alookup e2 "origin_y" = some (pyRound y) := by
  have hzne : z ≠ 0 := ne_of_gt hz
  have hxz : x * z / z = x := mul_div_cancel_right₀ x hzne
  have hyz : y * z / z = y := mul_div_cancel_right₀ y hzne
  have hox : itemChange z (x * z) (y * z) w h cx cy e
      = update_data w h cx cy (pyRound x) (pyRound y) e := by
    unfold itemChange
    rw [if_pos hz, hxz, hyz]
    show update_data w h cx cy (pyInt (((pyRound x : Int) : ℚ) * z / z))
        (pyInt (((pyRound y : Int) : ℚ) * z / z)) e = _
    rw [mul_div_cancel_right₀ _ hzne, mul_div_cancel_right₀ _ hzne,
      pyInt_intCast, pyInt_intCast]
  have hm : moveOriginPoint data current z (x * z) (y * z) w h cx cy
      = some (aset data current (itemChange z (x * z) (y * z) w h cx cy e)) := by
    rw [moveOriginPoint, he]
    rfl
  refine ⟨_, hm, itemChange z (x * z) (y * z) w h cx cy e, alookup_aset_self _ _ _, ?_, ?_⟩
  · rw [hox]
    exact (update_data_lookups w h cx cy (pyRound x) (pyRound y) e).2.2.1
  · rw [hox]
    exact (update_data_lookups w h cx cy (pyRound x) (pyRound y) e).2.2.2.1

/-- C5 witness: dragging to image-space `(3/2, -1/2)` under zoom 2 stores
`(2, 0)` — Python rounds half to even. -/
theorem c5_witness :
    ∃ d, moveOriginPoint [(["r", "a.png"], ([] : Entry))] ["r", "a.png"]
        2 (3 / 2 * 2) (-1 / 2 * 2) 10 10 1 1 = some d ∧
      ∃ e2, alookup d ["r", "a.png"] = some e2 ∧
        alookup e2 "origin_x" = some 2 ∧
        alookup e2 "origin_y" = some 0 := by
  have h32 : pyRound (3 / 2 : ℚ) = 2 := by
    have hf : pyFloor (3 / 2 : ℚ) = 1 := by
      rw [pyFloor_eq_floor]
      norm_num
    rw [pyRound, hf]
    norm_num
  have hm12 : pyRound (-1 / 2 : ℚ) = 0 := by
    have hf : pyFloor (-1 / 2 : ℚ) = -1 := by
      rw [pyFloor_eq_floor]
      norm_num
    rw [pyRound, hf]
    norm_num
  obtain ⟨d, hd, e2, he2, hx, hy⟩ :=
    c5_origin_rounded [(["r", "a.png"], ([] : Entry))] ["r", "a.png"] [] (by decide)
      2 (3 / 2) (-1 / 2) (by norm_num) 10 10 1 1
  exact ⟨d, hd, e2, he2, by rw [hx, h32], by rw [hy, hm12]⟩

/-- C6 counterexample: dragging the origin marker over a fresh (empty)
entry also writes the count and frame-size fields — `frame_count_x` goes
from absent to `1` — so the claim that a drag leaves those fields with the
same values they had before fails. -/
theorem c6_counterexample :
    alookup ((alookup ((moveOriginPoint c6FreshData ["r", "a.png"] 1 0 0 10 10 1 1).getD [])
        ["r", "a.png"]).getD []) "frame_count_x" = some 1 ∧
    alookup ([] : Entry) "frame_count_x" = none := by
  have hr0 : pyRound ((0 : ℚ) / 1) = 0 := by
    rw [pyRound, pyFloor_eq_floor]
    norm_num
  have e1 : itemChange 1 0 0 10 10 1 1 [] = update_data 10 10 1 1 0 0 [] := by
    unfold itemChange
    rw [if_pos (by norm_num : (0 : ℚ) < 1)]
    show update_data 10 10 1 1 (pyInt (((pyRound ((0 : ℚ) / 1) : Int) : ℚ) * 1 / 1))
        (pyInt (((pyRound ((0 : ℚ) / 1) : Int) : ℚ) * 1 / 1)) [] = _
    rw [hr0]
    norm_num [pyInt, pyFloor_eq_floor]
  have hl : alookup c6FreshData ["r", "a.png"] = some [] := by decide
  have hm : moveOriginPoint c6FreshData ["r", "a.png"] 1 0 0 10 10 1 1
      = some (aset c6FreshData ["r", "a.png"] (update_data 10 10 1 1 0 0 [])) := by
    rw [moveOriginPoint, hl, Option.map_some', e1]
  rw [hm]
  exact ⟨by decide, by decide⟩

/-- C6 (amended): when the entry for the current path is in sync with the
UI fields — its `frame_count_x`/`frame_count_y` equal the count fields and
its `frame_width`/`frame_height` equal the values `update_data` derives
from them — a drag rewrites the entry leaving those four fields with the
values they had before, and entries for all other paths are unchanged.
On an out-of-sync (e.g. fresh empty) entry the drag also writes the count
and frame-size fields. -/
theorem c6_amended (data : Dataset) (current : AbsPath) (z px py : ℚ)
    (w h cx cy : Int) (e : Entry)
    (he : alookup data current = some e)
    (h1 : alookup e "frame_count_x" = some cx)
    (h2 : alookup e "frame_count_y" = some cy)
    (h3 : alookup e "frame_width" = some (Int.fdiv w cx))
    (h4 : alookup e "frame_height" = some (Int.fdiv h cy)) :
    ∃ e2, moveOriginPoint data current z px py w h cx cy = some (aset data current e2) ∧
      (∀ q, q ≠ current → alookup (aset data current e2) q = alookup data q) ∧
      alookup e2 "frame_count_x" = alookup e "frame_count_x" ∧
      alookup e2 "frame_count_y" = alookup e "frame_count_y" ∧
      alookup e2 "frame_width" = alookup e "frame_width" ∧
      alookup e2 "frame_height" = alookup e "frame_height" := by
  obtain ⟨ox, oy, hic⟩ := itemChange_eq_update_data z px py w h cx cy e
  have L := update_data_lookups w h cx cy ox oy e
  refine ⟨itemChange z px py w h cx cy e, ?_, ?_, ?_, ?_, ?_, ?_⟩
  · rw [moveOriginPoint, he]
    rfl
  · intro q hq
    exact alookup_aset_ne _ _ _ _ hq
  · rw [hic, h1]
    exact L.1
  · rw [hic, h2]
    exact L.2.1
  · rw [hic, h3]
    exact L.2.2.2.2.1
  · rw [hic, h4]
    exact L.2.2.2.2.2

/-- C6 witness: on an in-sync entry (counts 1, frame size 10 for a 10x10
image), a drag leaves the four count/size fields unchanged and other
paths untouched. -/
theorem c6_witness :
    ∃ e2, moveOriginPoint [(["r", "a.png"], c6SyncEntry)] ["r", "a.png"] 1 0 0 10 10 1 1
        = some (aset [(["r", "a.png"], c6SyncEntry)] ["r", "a.png"] e2) ∧
      (∀ q, q ≠ ["r", "a.png"] →
        alookup (aset [(["r", "a.png"], c6SyncEntry)] ["r", "a.png"] e2) q
          = alookup [(["r", "a.png"], c6SyncEntry)] q) ∧
      alookup e2 "frame_count_x" = alookup c6SyncEntry "frame_count_x" ∧
      alookup e2 "frame_count_y" = alookup c6SyncEntry "frame_count_y" ∧
      alookup e2 "frame_width" = alookup c6SyncEntry "frame_width" ∧
      alookup e2 "frame_height" = alookup c6SyncEntry "frame_height" :=
  c6_amended [(["r", "a.png"], c6SyncEntry)] ["r", "a.png"] 1 0 0 10 10 1 1 c6SyncEntry
    (by decide) (by decide) (by decide) (by decide) (by decide)

theorem alookup_filter_mem {β : Type} (l : List (AbsPath × β)) (s : List AbsPath) (q : AbsPath) :
    alookup (l.filter fun kv => decide (kv.1 ∈ s)) q
      = if q ∈ s then alookup l q else none := by
  induction l with
  | nil => simp [alookup]
  | cons kv rest ih =>
    by_cases h1 : kv.1 ∈ s
    · by_cases h2 : kv.1 = q
      · subst h2
        simp [alookup, List.filter, h1, ih]
      · simp [alookup, List.filter, h1, h2, ih]
    · by_cases h2 : kv.1 = q
      · subst h2
        simp [alookup, List.filter, h1, ih]
      · simp [alookup, List.filter, h1, h2, ih]

theorem alookup_fill (ps : List AbsPath) (d : Dataset) (q : AbsPath) :
    alookup (ps.foldl (fun d p => if (alookup d p).isSome then d else aset d p []) d) q
      = if (alookup d q).isSome then alookup d q
        else if q ∈ ps then some [] else none := by
  induction ps generalizing d with
  | nil =>
    simp only [List.foldl_nil, List.not_mem_nil, if_false]
    cases hc : alookup d q <;> simp [hc]
  | cons p ps ih =>
    simp only [List.foldl_cons]
    rw [ih]
    by_cases hp : (alookup d p).isSome
    · rw [if_pos hp]
      by_cases hq : (alookup d q).isSome
      · simp [hq]
      · have hqp : q ≠ p := fun h => by
          subst h
          exact hq hp
        simp [hq, hqp]
    · rw [if_neg hp]
      by_cases hqp : q = p
      · subst hqp
        have hs : alookup (aset d q []) q = some [] := alookup_aset_self d q []
        have hqn : alookup d q = none := Option.not_isSome_iff_eq_none.mp hp
        simp [hs, hqn]
      · have hne : alookup (aset d p []) q = alookup d q := alookup_aset_ne d p q [] hqp
        rw [hne]
        by_cases hq : (alookup d q).isSome
        · simp [hq]
        · simp [hq, hqp]

/-- C3: after loading a folder with a parsed sidecar, the dataset maps
exactly the discovered image paths: a discovered path keeps its sidecar
entry if the (folder-joined) sidecar had one, otherwise gets a fresh empty
entry; sidecar entries for paths not discovered are dropped; nothing else
is a key. -/
theorem c3_load_merge (folder : AbsPath) (l : List (AbsPath × Entry))
    (image_paths : List AbsPath) (q : AbsPath) :
    alookup (load_folder folder (.parsed l) image_paths).2 q
      = if q ∈ image_paths
        then some ((alookup (l.map fun kv => (folder ++ kv.1, kv.2)) q).getD [])
        else none := by
  unfold load_folder
  simp only
  rw [alookup_fill, alookup_filter_mem]
  by_cases hq : q ∈ image_paths
  · rw [if_pos hq, if_pos hq]
    cases hc : alookup (l.map fun kv => (folder ++ kv.1, kv.2)) q <;> simp [hc, hq]
  · simp [hq]

/-- C9: a malformed sidecar surfaces a warning (the error box), degrades
to an empty mapping, and the folder load still completes: every discovered
image path is mapped to a fresh empty entry and nothing else is a key. -/
theorem c9_malformed_sidecar (folder : AbsPath) (image_paths : List AbsPath) (q : AbsPath) :
    (load_folder folder .malformed image_paths).1 = true ∧
    alookup (load_folder folder .malformed image_paths).2 q
      = if q ∈ image_paths then some [] else none := by
  constructor
  · rfl
  · unfold load_folder
    simp only
    rw [alookup_fill]
    simp [alookup]

/-- C10: after any completed load, the keys of the dataset are exactly the
discovered image paths (as a set), hence the dataset is empty iff no image
was discovered — so Save's "No data to export" and "No images loaded"
checks reject or pass together after a load. -/
theorem c10_keys_eq_discovered (folder : AbsPath) (sidecar : Sidecar)
    (image_paths : List AbsPath) :
    (∀ q, (alookup (load_folder folder sidecar image_paths).2 q).isSome ↔ q ∈ image_paths) ∧
    ((load_folder folder sidecar image_paths).2 = [] ↔ image_paths = []) ∧
    (∀ (w h cx cy ox oy : Int),
      (∃ msg, (export_json (load_folder folder sidecar image_paths).2 image_paths none
          w h cx cy ox oy).1 = .validationError msg) ↔ image_paths = []) := by
  have hmem : ∀ q, (alookup (load_folder folder sidecar image_paths).2 q).isSome
      ↔ q ∈ image_paths := by
    intro q
    unfold load_folder
    simp only
    rw [alookup_fill, alookup_filter_mem]
    by_cases hq : q ∈ image_paths
    · simp only [hq, if_true, iff_true]
      cases hc : alookup _ q <;> simp [hc]
    · simp [hq]
  have hempty : (load_folder folder sidecar image_paths).2 = [] ↔ image_paths = [] := by
    constructor
    · intro hnil
      cases hps : image_paths with
      | nil => rfl
      | cons p rest =>
        have := (hmem p).mpr (by rw [hps]; exact List.mem_cons_self p rest)
        rw [hnil] at this
        simp [alookup] at this
    · intro hnil
      subst hnil
      unfold load_folder
      simp only [List.foldl_nil]
      cases sidecar <;> simp [List.filter_eq_nil_iff]
  refine ⟨hmem, hempty, ?_⟩
  intro w h cx cy ox oy
  constructor
  · rintro ⟨msg, hmsg⟩
    by_contra hne
    have hdne : (load_folder folder sidecar image_paths).2 ≠ [] :=
      fun hdnil => hne (hempty.mp hdnil)
    simp [export_json, hdne, hne] at hmsg
  · intro hnil
    refine ⟨"No data to export", ?_⟩
    have hdnil : (load_folder folder sidecar image_paths).2 = [] := hempty.mpr hnil
    simp [export_json, hdnil]

/-- C8: a count-field edit either leaves the entry alone (non-numeric
text is "no edit") or runs the derivation with counts that were clamped
to 1 when supplied non-positive — so `update_data`'s divisions only ever
see strictly positive counts. -/
theorem c8_clamped_counts (cx0 cy0 : FieldText) (w h ox oy : Int) (e : Entry) :
    (on_count_change cx0 cy0 w h ox oy e).2.2 = e ∨
    ∃ nx ny,
      (on_count_change cx0 cy0 w h ox oy e).2.2
        = update_data w h (if nx ≤ 0 then 1 else nx) (if ny ≤ 0 then 1 else ny) ox oy e ∧
      0 < (if nx ≤ 0 then 1 else nx) ∧ 0 < (if ny ≤ 0 then 1 else ny) := by
  have hpos : ∀ n : Int, 0 < (if n ≤ 0 then 1 else n) := by
    intro n
    by_cases hn : n ≤ 0
    · simp [hn]
    · simp [hn, lt_of_not_le hn]
  cases cx0 with
  | emptyText =>
    cases cy0 with
    | emptyText => exact Or.inl rfl
    | num ny =>
      exact Or.inr ⟨1, ny, rfl, hpos 1, hpos ny⟩
    | invalid => exact Or.inl rfl
  | num nx =>
    cases cy0 with
    | emptyText => exact Or.inr ⟨nx, 1, rfl, hpos nx, hpos 1⟩
    | num ny => exact Or.inr ⟨nx, ny, rfl, hpos nx, hpos ny⟩
    | invalid => exact Or.inl rfl
  | invalid =>
    cases cy0 with
    | emptyText => exact Or.inl rfl
    | num ny => exact Or.inl rfl
    | invalid => exact Or.inl rfl

/-- C4: saving with an empty dataset, or with data but no discovered
image paths, fails with the corresponding validation error and returns
the dataset unchanged — the checks run before anything is mutated or
written. -/
theorem c4_save_validation (data : Dataset) (image_paths : List AbsPath)
    (current : Option AbsPath) (w h cx cy ox oy : Int) :
    (data = [] →
      export_json data image_paths current w h cx cy ox oy
        = (.validationError "No data to export", data)) ∧
    (data ≠ [] → image_paths = [] →
      export_json data image_paths current w h cx cy ox oy
        = (.validationError "No images loaded", data)) := by
  constructor
  · intro hd
    simp [export_json, hd]
  · intro hd hp
    simp [export_json, hd, hp]

/-- C4 witness: both failing saves at concrete states. -/
theorem c4_witness :
    export_json [] [["r", "a.png"]] none 0 0 1 1 0 0
      = (.validationError "No data to export", []) ∧
    export_json [(["r", "a.png"], [])] [] none 0 0 1 1 0 0
      = (.validationError "No images loaded", [(["r", "a.png"], [])]) :=
  ⟨(c4_save_validation [] [["r", "a.png"]] none 0 0 1 1 0 0).1 rfl,
   (c4_save_validation [(["r", "a.png"], [])] [] none 0 0 1 1 0 0).2 (by decide) rfl⟩

/-- C7 counterexample: with the chosen root folder `root` and both images
inside `root/sub`, export keys are relative to `root/sub` (the common path
of the image paths), not to the root folder, and a freshly written entry
serializes its fields in the order `frame_count_x, frame_count_y,
origin_x, origin_y, frame_width, frame_height` — not the claimed
`frame_width, frame_height, frame_count_x, frame_count_y, origin_x,
origin_y`. -/
theorem c7_counterexample :
    (export_json
        [(["root", "sub", "a.png"], update_data 128 64 4 2 0 0 []),
         (["root", "sub", "b.png"], update_data 128 64 4 2 0 0 [])]
        [["root", "sub", "a.png"], ["root", "sub", "b.png"]] none 128 64 4 2 0 0).1
      = .output ⟨[(["a.png"],
            [("frame_count_x", 4), ("frame_count_y", 2), ("origin_x", 0), ("origin_y", 0),
             ("frame_width", 32), ("frame_height", 32)]),
          (["b.png"],
            [("frame_count_x", 4), ("frame_count_y", 2), ("origin_x", 0), ("origin_y", 0),
             ("frame_width", 32), ("frame_height", 32)])], 4⟩ ∧
    (["a.png"] : AbsPath) ≠ ["sub", "a.png"] ∧
    (["frame_count_x", "frame_count_y", "origin_x", "origin_y", "frame_width", "frame_height"]
        : List String)
      ≠ ["frame_width", "frame_height", "frame_count_x", "frame_count_y", "origin_x",
         "origin_y"] := by
  decide

/-- C7 (amended): for a non-empty dataset with discovered images and no
selected path, export serializes the mapping with keys relative to the
common path of the discovered image paths, leaves the dataset unchanged,
dumps with fixed indentation 4, and each entry keeps insertion order —
which for entries written by the editor is `frame_count_x, frame_count_y,
origin_x, origin_y, frame_width, frame_height`. -/
theorem c7_amended (data : Dataset) (image_paths : List AbsPath) (w h cx cy ox oy : Int)
    (hd : data ≠ []) (hp : image_paths ≠ []) :
    (export_json data image_paths none w h cx cy ox oy).1
      = .output ⟨data.map fun kv => (relpath kv.1 (commonpath image_paths), kv.2), 4⟩ ∧
    (export_json data image_paths none w h cx cy ox oy).2 = data ∧
    ∀ (wI hI cxI cyI oxI oyI : Int),
      (update_data wI hI cxI cyI oxI oyI []).map Prod.fst
        = ["frame_count_x", "frame_count_y", "origin_x", "origin_y",
           "frame_width", "frame_height"] := by
  refine ⟨?_, ?_, ?_⟩
  · simp [export_json, hd, hp]
  · simp [export_json, hd, hp]
  · intro wI hI cxI cyI oxI oyI
    rfl

/-- C7 witness: a single image at `root/sub/a.png`; the common path is the
full image path, so its key relativizes to the empty relative path, and
the editor-written field order is as amended. -/
theorem c7_witness :
    (export_json [(["root", "sub", "a.png"], ([] : Entry))] [["root", "sub", "a.png"]] none
        1 1 1 1 0 0).1
      = .output ⟨[(([] : AbsPath), ([] : Entry))], 4⟩ ∧
    (update_data 1 1 1 1 0 0 []).map Prod.fst
      = ["frame_count_x", "frame_count_y", "origin_x", "origin_y", "frame_width",
         "frame_height"] := by
  have h := c7_amended [(["root", "sub", "a.png"], [])] [["root", "sub", "a.png"]]
    1 1 1 1 0 0 (by decide) (by decide)
  exact ⟨h.1.trans (by decide), h.2.2 1 1 1 1 0 0⟩

end SpriteFrameTool
